import Mathlib

/-!
# vtkF3DGenericImporter: a shallow embedding of `ImportActors`

The importer of `src/src/vtkF3DGenericImporter.cxx` sequences calls into an
external visualisation toolkit.  The toolkit itself is not part of the
repository, so its objects are represented here by the values the importer
reads through their accessors and by the values it hands to their setters.
What the toolkit computes on its own (surface extraction, appending of
poly data, bounding-box diagonal, data range of an array) is taken as a
parameter, the structure `Toolkit`.

Doubles are an abstract type `D` carrying a multiplication and decimal
literals; the importer performs no other arithmetic on them.  Array names and
option strings are C strings without an embedded NUL, so `c_str()` is the
identity on them.
-/

namespace F3D

/-! ## Options -/

/-- Modelled from the spec: `F3DOptions.h` is not among the sources.  The
fields are the ones `ImportActors` reads; `SolidColor` holds the three colour
components that `std::copy` moves into `col[3]`, `Range` is a sequence whose
size is tested against 2, `Component` is a signed integer. -/
structure F3DOptions (D : Type) where
  Bar : Bool
  Cells : Bool
  Raytracing : Bool
  Verbose : Bool
  Metallic : D
  Opacity : D
  PointSize : D
  Roughness : D
  Component : Int
  Scalars : String
  Range : List D
  SolidColor : D × D × D
deriving DecidableEq

/-! ## Toolkit objects read by the importer -/

/-- A `vtkDataArray`: its name, its number of components and its flat buffer. -/
structure vtkDataArray (D : Type) where
  Name : String
  NumberOfComponents : Nat
  Values : List D
deriving DecidableEq

/-- The attribute data of a surface (`vtkPointData` or `vtkCellData`): the
arrays in index order and the index of the active scalars, if any. -/
structure vtkDataSetAttributes (D : Type) where
  Arrays : List (vtkDataArray D)
  ActiveScalars : Option Nat
deriving DecidableEq

/-- Accessor `GetNumberOfArrays()`. -/
def vtkDataSetAttributes.GetNumberOfArrays {D : Type} (a : vtkDataSetAttributes D) : Nat :=
  a.Arrays.length

/-- Accessor `GetArray(const char*)`: the first array carrying the name. -/
def vtkDataSetAttributes.GetArray {D : Type} (a : vtkDataSetAttributes D) (name : String) :
    Option (vtkDataArray D) :=
  a.Arrays.find? (fun arr => arr.Name == name)

/-- Accessor `GetScalars()`: the active scalars array, `none` for a null pointer. -/
def vtkDataSetAttributes.GetScalars {D : Type} (a : vtkDataSetAttributes D) :
    Option (vtkDataArray D) :=
  match a.ActiveScalars with
  | some i => a.Arrays[i]?
  | none => none

/-- A `vtkPolyData`: point count, the sizes of its four cell arrays, its
bounds and its two attribute data. -/
structure vtkPolyData (D : Type) where
  NumberOfPoints : Nat
  NumberOfVerts : Nat
  NumberOfLines : Nat
  NumberOfPolys : Nat
  NumberOfStrips : Nat
  Bounds : List D
  PointData : vtkDataSetAttributes D
  CellData : vtkDataSetAttributes D
deriving DecidableEq

/-- Accessor `GetNumberOfCells()`: the four cell arrays together. -/
def vtkPolyData.GetNumberOfCells {D : Type} (s : vtkPolyData D) : Nat :=
  s.NumberOfVerts + s.NumberOfLines + s.NumberOfPolys + s.NumberOfStrips

/-- A `vtkDataObject` as the reader hands it back: a null pointer, a plain
data set, or a multi-block tree whose blocks may be null. -/
inductive vtkDataObject (Raw : Type) where
  | null : vtkDataObject Raw
  | dataSet (raw : Raw) : vtkDataObject Raw
  | multiBlock (blocks : List (vtkDataObject Raw)) : vtkDataObject Raw

/-- What the toolkit computes and the importer only consumes. -/
structure Toolkit (D Raw : Type) where
  /-- Output of a `vtkDataSetSurfaceFilter` on an input, cast to poly data. -/
  SurfaceFilter : vtkDataObject Raw → Option (vtkPolyData D)
  /-- Output of a `vtkAppendPolyData` on its inputs, cast to poly data. -/
  AppendPolyData : List (Option (vtkPolyData D)) → Option (vtkPolyData D)
  /-- Diagonal length of the `vtkBoundingBox` built on six bounds. -/
  GetDiagonalLength : List D → D
  /-- Data range `GetRange(range, comp)` of an array. -/
  GetRange : vtkDataArray D → Int → D × D

/-! ## Toolkit objects written by the importer -/

inductive VectorMode where
  | MAGNITUDE
  | COMPONENT
  | RGBCOLORS
deriving DecidableEq

/-- A `vtkScalarsToColors`; a fresh one is in component mode on component 0. -/
structure vtkScalarsToColors where
  VectorMode : VectorMode
  VectorComponent : Int
deriving DecidableEq

inductive ScalarMode where
  | DEFAULT
  | USE_POINT_DATA
  | USE_CELL_DATA
  | USE_POINT_FIELD_DATA
  | USE_CELL_FIELD_DATA
  | USE_FIELD_DATA
deriving DecidableEq

inductive ColorMode where
  | DEFAULT
  | MAP_SCALARS
  | DIRECT_SCALARS
deriving DecidableEq

/-- The concrete mapper class, with what is set on the gaussian one. -/
inductive MapperClass (D : Type) where
  | PolyDataMapper : MapperClass D
  | PointGaussianMapper (ScaleFactor : D) (Emissive : Bool) (SplatShaderCode : String) :
      MapperClass D
deriving DecidableEq

/-- A `vtkPolyDataMapper` (or subclass).  `ColorArray`, `LookupTable` and
`ScalarRange` are `none` as long as the importer has not touched them. -/
structure vtkPolyDataMapper (D : Type) where
  Class : MapperClass D
  InterpolateScalarsBeforeMapping : Bool
  ColorMode : ColorMode
  Input : Option (vtkPolyData D)
  ScalarVisibility : Bool
  ColorArray : Option String
  ScalarMode : ScalarMode
  LookupTable : Option vtkScalarsToColors
  ScalarRange : Option (D × D)
deriving DecidableEq

/-- A mapper as the toolkit constructs it. -/
def vtkPolyDataMapper.New {D : Type} (c : MapperClass D) : vtkPolyDataMapper D :=
  { Class := c
    InterpolateScalarsBeforeMapping := false
    ColorMode := ColorMode.DEFAULT
    Input := none
    ScalarVisibility := true
    ColorArray := none
    ScalarMode := ScalarMode.DEFAULT
    LookupTable := none
    ScalarRange := none }

inductive Orientation where
  | HORIZONTAL
  | VERTICAL
deriving DecidableEq

/-- A `vtkScalarBarActor`, by the values passed to its setters. -/
structure vtkScalarBarActor (D : Type) where
  LookupTable : vtkScalarsToColors
  Title : String
  NumberOfLabels : Nat
  Orientation : Orientation
  Width : D
  Height : D
  Position : D × D
  Visibility : Bool
deriving DecidableEq

inductive Interpolation where
  | FLAT
  | GOURAUD
  | PHONG
  | PBR
deriving DecidableEq

/-- A `vtkProperty`, by the values passed to its setters. -/
structure vtkProperty (D : Type) where
  Interpolation : Interpolation
  Color : D × D × D
  Opacity : D
  Roughness : D
  Metallic : D
  PointSize : D
deriving DecidableEq

structure vtkActor (D : Type) where
  Mapper : vtkPolyDataMapper D
  Property : vtkProperty D
deriving DecidableEq

/-- A `vtkRenderer`: the props added with `AddActor` and with `AddActor2D`. -/
structure vtkRenderer (D : Type) where
  Actors : List (vtkActor D)
  Actors2D : List (vtkScalarBarActor D)
deriving DecidableEq

/-! ## The importer and its surroundings -/

/-- Modelled from the spec: the class of `this->Reader` is not among the
sources.  The fields are what `ImportActors` asks of it (`IsReaderValid`,
`GetFileName`, `GetOutput`) and what it does to it (`AddObserver`, `Update`). -/
structure vtkF3DMetaReader (Raw : Type) where
  /-- Answer of `IsReaderValid()`. -/
  Valid : Bool
  FileName : String
  /-- Result of `GetOutput()` once `Update()` has run. -/
  Output : vtkDataObject Raw
  /-- Number of progress observers attached. -/
  ProgressObservers : Nat
  /-- Number of `Update()` calls received. -/
  Updates : Nat

structure vtkF3DGenericImporter (D Raw : Type) where
  Reader : vtkF3DMetaReader Raw
  /-- The pointer `this->Options`, `none` when null. -/
  Options : Option (F3DOptions D)

/-- Modelled from the spec: `F3DLog.h` is not among the sources.  Only the
severity the importer passes to `F3DLog::Print` is listed. -/
inductive Severity where
  | Info
deriving DecidableEq

/-- Everything a call of `ImportActors` can read or write. -/
structure World (D Raw : Type) where
  self : vtkF3DGenericImporter D Raw
  ren : vtkRenderer D
  cout : String
  cerr : String
  /-- Calls of `F3DLog::Print`, each with its severity and its arguments. -/
  log : List (Severity × List String)

/-! ## Lines 55 to 86: from the reader output to a surface -/

mutual
/-- The data objects met by a tree iterator with `VisitOnlyLeavesOn`,
`SkipEmptyNodesOn` and `TraverseSubTreeOn`, started on the blocks of a
multi-block data set. -/
def visitedLeaves {Raw : Type} : List (vtkDataObject Raw) → List (vtkDataObject Raw)
  | [] => []
  | b :: bs => leavesOf b ++ visitedLeaves bs
/-- The leaves contributed by one block. -/
def leavesOf {Raw : Type} : vtkDataObject Raw → List (vtkDataObject Raw)
  | vtkDataObject.null => []
  | vtkDataObject.dataSet raw => [vtkDataObject.dataSet raw]
  | vtkDataObject.multiBlock blocks => visitedLeaves blocks
end

/-- The poly data `surface` of line 86, `none` when the cast yields null. -/
def extractSurface {D Raw : Type} (tk : Toolkit D Raw) (dataObject : vtkDataObject Raw) :
    Option (vtkPolyData D) :=
  match dataObject with
  | vtkDataObject.multiBlock blocks =>
      tk.AppendPolyData ((visitedLeaves blocks).map tk.SurfaceFilter)
  | other => tk.SurfaceFilter other

/-! ## Lines 93 to 132: the mapper -/

/-- The shader code given to `SetSplatShaderCode`. -/
def splatShaderCode : String :=
  "//VTK::Color::Impl\n" ++
  "float dist = dot(offsetVCVSOutput.xy, offsetVCVSOutput.xy);\n" ++
  "if (dist > 1.0) \x7b\n" ++
  "  discard;\n" ++
  "\x7d else \x7b\n" ++
  "  float scale = (1.0 - dist);\n" ++
  "  ambientColor *= scale;\n" ++
  "  diffuseColor *= scale;\n" ++
  "\x7d\n"

/-- The mapper after `SetInputData(surface)`. -/
def createMapper {D Raw : Type} [Mul D] [OfScientific D] (tk : Toolkit D Raw)
    (opts : F3DOptions D) (surface : vtkPolyData D) : vtkPolyDataMapper D :=
  if opts.Raytracing = false ∧ surface.NumberOfVerts = surface.GetNumberOfCells then
    let pointSize := opts.PointSize * tk.GetDiagonalLength surface.Bounds * 0.001
    { vtkPolyDataMapper.New (MapperClass.PointGaussianMapper pointSize false splatShaderCode)
        with Input := some surface }
  else
    { vtkPolyDataMapper.New MapperClass.PolyDataMapper with
        InterpolateScalarsBeforeMapping := true
        ColorMode := ColorMode.MAP_SCALARS
        Input := some surface }

/-! ## Lines 134 to 158: the verbose report -/

/-- One line per array, numbered from `i`. -/
def printArrays {D : Type} (i : Nat) : List (vtkDataArray D) → String
  | [] => ""
  | array :: rest =>
      " #" ++ toString i ++ " \x27" ++ array.Name ++ "\x27: " ++
        toString array.NumberOfComponents ++ " comp.\n" ++ printArrays (i + 1) rest

/-- What is written to `cout` between lines 134 and 158. -/
def verboseReport {D : Type} (opts : F3DOptions D) (surface : vtkPolyData D) : String :=
  if opts.Verbose then
    "Number of points: " ++ toString surface.NumberOfPoints ++
    "\nNumber of polygons: " ++ toString surface.NumberOfPolys ++
    "\nNumber of lines: " ++ toString surface.NumberOfLines ++
    "\nNumber of vertices: " ++ toString surface.NumberOfVerts ++ "\n" ++
    toString surface.PointData.GetNumberOfArrays ++ " point data array(s)\n" ++
    printArrays 0 surface.PointData.Arrays ++
    toString surface.CellData.GetNumberOfArrays ++ " cell data array(s)\n" ++
    printArrays 0 surface.CellData.Arrays
  else ""

/-! ## Lines 160 to 190: the array name -/

/-- The value of `usedArray` at line 192 and what lines 160 to 190 write to
`cout`. -/
def resolveUsedArray {D : Type} (opts : F3DOptions D) (surface : vtkPolyData D) :
    String × String :=
  let usedArray := opts.Scalars
  if usedArray = "f3d_reserved" then
    let array := if opts.Cells then surface.CellData.GetScalars
                 else surface.PointData.GetScalars
    match array with
    | some array =>
        let usedArray := array.Name
        (usedArray,
          if opts.Verbose then "Using default scalar array: " ++ usedArray ++ "\n" else "")
    | none =>
        ("",
          if opts.Verbose then "No default scalar array, please specify an array name.\n"
          else "")
  else (usedArray, "")

/-! ## Lines 192 to 259: colour mapping -/

/-- Decimal text of an `int`, as `std::to_string` and `operator<<` give it. -/
def to_string (i : Int) : String :=
  match i with
  | Int.ofNat n => Nat.repr n
  | Int.negSucc n => "-" ++ Nat.repr (n + 1)

/-- The outcome of lines 192 to 259. -/
structure Coloring (D : Type) where
  mapper : vtkPolyDataMapper D
  scalarBar : Option (vtkScalarBarActor D)
  cerr : String

/-- Lines 192 to 259 on the mapper of line 132. -/
def configureColoring {D Raw : Type} [OfScientific D] (tk : Toolkit D Raw)
    (opts : F3DOptions D) (surface : vtkPolyData D) (usedArray : String)
    (mapper : vtkPolyDataMapper D) : Coloring D :=
  let mapper := { mapper with ScalarVisibility := false }
  if usedArray ≠ "" then
    let array := if opts.Cells then surface.CellData.GetArray usedArray
                 else surface.PointData.GetArray usedArray
    match array with
    | some array =>
        if opts.Component < (array.NumberOfComponents : Int) then
          let lut : vtkScalarsToColors := (mapper.LookupTable).getD
            { VectorMode := VectorMode.COMPONENT, VectorComponent := 0 }
          let lut : vtkScalarsToColors :=
            if opts.Component ≥ 0 then
              { lut with VectorMode := VectorMode.COMPONENT, VectorComponent := opts.Component }
            else
              { lut with VectorMode := VectorMode.MAGNITUDE }
          let range : D × D :=
            if h : opts.Range.length = 2 then (opts.Range[0], opts.Range[1])
            else tk.GetRange array opts.Component
          let mapper :=
            { mapper with
                ScalarVisibility := true
                ColorArray := some usedArray
                ScalarMode := if opts.Cells then ScalarMode.USE_CELL_FIELD_DATA
                              else ScalarMode.USE_POINT_FIELD_DATA
                LookupTable := some lut
                ScalarRange := some range }
          let title :=
            if opts.Component ≥ 0 then
              usedArray ++ " (Component #" ++ to_string opts.Component ++ ")"
            else usedArray
          let scalarBar : vtkScalarBarActor D :=
            { LookupTable := lut
              Title := title
              NumberOfLabels := 4
              Orientation := Orientation.HORIZONTAL
              Width := 0.8
              Height := 0.07
              Position := (0.1, 0.01)
              Visibility := opts.Bar }
          { mapper := mapper, scalarBar := some scalarBar, cerr := "" }
        else
          { mapper := mapper, scalarBar := none,
            cerr := "Invalid component index: " ++ to_string opts.Component ++ "\n" }
    | none =>
        { mapper := mapper, scalarBar := none,
          cerr := "Unknow scalar array: " ++ usedArray ++ "\n" }
  else
    { mapper := mapper, scalarBar := none, cerr := "" }

/-! ## Lines 261 to 275: the actor -/

/-- The actor handed to `AddActor`. -/
def createActor {D : Type} (opts : F3DOptions D) (mapper : vtkPolyDataMapper D) :
    vtkActor D :=
  let col : D × D × D := opts.SolidColor
  { Mapper := mapper
    Property :=
      { Interpolation := Interpolation.PBR
        Color := col
        Opacity := opts.Opacity
        Roughness := opts.Roughness
        Metallic := opts.Metallic
        PointSize := opts.PointSize } }

/-! ## The member functions -/

/-- Member `vtkF3DGenericImporter::CanReadFile`. -/
def CanReadFile {D Raw : Type} (self : vtkF3DGenericImporter D Raw) : Bool :=
  self.Reader.Valid

/-- Member `vtkF3DGenericImporter::SetFileName`. -/
def SetFileName {D Raw : Type} (self : vtkF3DGenericImporter D Raw) (arg : String) :
    vtkF3DGenericImporter D Raw :=
  { self with Reader := { self.Reader with FileName := arg } }

/-- Member `vtkF3DGenericImporter::SetOptions`. -/
def SetOptions {D Raw : Type} (self : vtkF3DGenericImporter D Raw) (options : F3DOptions D) :
    vtkF3DGenericImporter D Raw :=
  { self with Options := some options }

/-- Member `vtkF3DGenericImporter::ImportActors`, as a transformer of the world. -/
def ImportActors {D Raw : Type} [Mul D] [OfScientific D] (tk : Toolkit D Raw)
    (w : World D Raw) : World D Raw :=
  if w.self.Reader.Valid = false then
    { w with log := w.log ++
        [(Severity.Info, ["File \x27", w.self.Reader.FileName, "\x27 cannot be read."])] }
  else
    let reader := { w.self.Reader with
      ProgressObservers := w.self.Reader.ProgressObservers + 1
      Updates := w.self.Reader.Updates + 1 }
    let w := { w with self := { w.self with Reader := reader } }
    match extractSurface tk reader.Output, w.self.Options with
    | some surface, some opts =>
        let mapper := createMapper tk opts surface
        let w := { w with cout := w.cout ++ verboseReport opts surface }
        let resolved := resolveUsedArray opts surface
        let usedArray := resolved.1
        let w := { w with cout := w.cout ++ resolved.2 }
        let coloring := configureColoring tk opts surface usedArray mapper
        let w := { w with cerr := w.cerr ++ coloring.cerr }
        let w :=
          match coloring.scalarBar with
          | some scalarBar =>
              { w with ren := { w.ren with Actors2D := w.ren.Actors2D ++ [scalarBar] } }
          | none => w
        let actor := createActor opts coloring.mapper
        { w with ren := { w.ren with Actors := w.ren.Actors ++ [actor] } }
    | _, _ => w

/-! ## Vocabulary of the statements -/

/-- The attribute data the options select: cell data with `Cells`, point data
without. -/
def selectedData {D : Type} (opts : F3DOptions D) (surface : vtkPolyData D) :
    vtkDataSetAttributes D :=
  if opts.Cells then surface.CellData else surface.PointData

/-- The array name in use once lines 160 to 190 have run. -/
def usedArray {D : Type} (opts : F3DOptions D) (surface : vtkPolyData D) : String :=
  (resolveUsedArray opts surface).1

/-- Whether a mapper is the point-gaussian (splatting) one. -/
def MapperClass.isPointGaussian {D : Type} : MapperClass D → Bool
  | MapperClass.PolyDataMapper => false
  | MapperClass.PointGaussianMapper _ _ _ => true

/-! ## Sample inputs -/

/-- A toolkit whose surface filter reads the surface stored in the data set. -/
def sampleToolkit : Toolkit Rat (vtkPolyData Rat) :=
  { SurfaceFilter := fun d =>
      match d with
      | vtkDataObject.dataSet surface => some surface
      | _ => none
    AppendPolyData := fun inputs => inputs.head?.join
    GetDiagonalLength := fun _ => 2
    GetRange := fun _ _ => (5, 9) }

/-- A three-component point array. -/
def sampleNormals : vtkDataArray Rat :=
  { Name := "normals", NumberOfComponents := 3, Values := [0, 0, 1, 0, 0, 1, 0, 0, 1] }

/-- A triangle with a three-component point array `normals`, active as
scalars, and a one-component cell array `id`. -/
def sampleSurface : vtkPolyData Rat :=
  { NumberOfPoints := 3
    NumberOfVerts := 0
    NumberOfLines := 0
    NumberOfPolys := 1
    NumberOfStrips := 0
    Bounds := [0, 1, 0, 1, 0, 0]
    PointData :=
      { Arrays := [sampleNormals]
        ActiveScalars := some 0 }
    CellData :=
      { Arrays := [{ Name := "id", NumberOfComponents := 1, Values := [7] }]
        ActiveScalars := none } }

/-- Options asking for component 1 of the point array `normals`. -/
def sampleOptions : F3DOptions Rat :=
  { Bar := true
    Cells := false
    Raytracing := false
    Verbose := false
    Metallic := 0
    Opacity := 1
    PointSize := 10
    Roughness := 3 / 10
    Component := 1
    Scalars := "normals"
    Range := []
    SolidColor := (1, 1 / 2, 0) }

/-- Options asking for a point array the sample surface does not carry. -/
def missingArrayOptions : F3DOptions Rat :=
  { sampleOptions with Scalars := "pressure" }

/-- The sample options with an explicit two-element range. -/
def rangeOptions : F3DOptions Rat :=
  { sampleOptions with Range := [2, 4] }

/-- The sample options with a three-element range. -/
def longRangeOptions : F3DOptions Rat :=
  { sampleOptions with Range := [2, 4, 6] }

/-- Three vertex cells and nothing else, without any array. -/
def pointCloud : vtkPolyData Rat :=
  { NumberOfPoints := 3
    NumberOfVerts := 3
    NumberOfLines := 0
    NumberOfPolys := 0
    NumberOfStrips := 0
    Bounds := [0, 1, 0, 1, 0, 1]
    PointData := { Arrays := [], ActiveScalars := none }
    CellData := { Arrays := [], ActiveScalars := none } }

/-- The sample options with the reserved array name: the default scalars of
the point data are asked for. -/
def reservedOptions : F3DOptions Rat :=
  { sampleOptions with Scalars := "f3d_reserved" }

/-- The reserved array name on the cell data, which has no default scalars. -/
def reservedCellOptions : F3DOptions Rat :=
  { sampleOptions with Scalars := "f3d_reserved", Cells := true }

/-- The sample options with a negative component. -/
def magnitudeOptions : F3DOptions Rat :=
  { sampleOptions with Component := -2 }

/-- The sample options with a component past the last one of `normals`. -/
def badComponentOptions : F3DOptions Rat :=
  { sampleOptions with Component := 3 }

/-- A world whose reader hands back the given surface, with an empty renderer
and nothing printed yet. -/
def worldOn (surface : vtkPolyData Rat) (opts : Option (F3DOptions Rat)) (valid : Bool) :
    World Rat (vtkPolyData Rat) :=
  { self :=
      { Reader :=
          { Valid := valid
            FileName := "triangle.vtp"
            Output := vtkDataObject.dataSet surface
            ProgressObservers := 0
            Updates := 0 }
        Options := opts }
    ren := { Actors := [], Actors2D := [] }
    cout := ""
    cerr := ""
    log := [] }

/-- A world on the sample surface. -/
def sampleWorld (opts : Option (F3DOptions Rat)) (valid : Bool) :
    World Rat (vtkPolyData Rat) :=
  worldOn sampleSurface opts valid

end F3D

namespace F3D

/-! ## Shared lemmas -/

section lemmas

variable {D Raw : Type}

/-- The lookup by name is the lookup in the selected attribute data. -/
theorem getArray_selected (opts : F3DOptions D) (surface : vtkPolyData D) (name : String) :
    (if opts.Cells then surface.CellData.GetArray name else surface.PointData.GetArray name)
      = (selectedData opts surface).GetArray name := by
  unfold selectedData
  cases opts.Cells <;> simp

/-- The default scalars are those of the selected attribute data. -/
theorem getScalars_selected (opts : F3DOptions D) (surface : vtkPolyData D) :
    (if opts.Cells then surface.CellData.GetScalars else surface.PointData.GetScalars)
      = (selectedData opts surface).GetScalars := by
  unfold selectedData
  cases opts.Cells <;> simp

/-- A lookup by name succeeds exactly when some array carries the name. -/
theorem getArray_isSome_iff (a : vtkDataSetAttributes D) (name : String) :
    (a.GetArray name).isSome = true ↔ ∃ array ∈ a.Arrays, array.Name = name := by
  unfold vtkDataSetAttributes.GetArray
  simp [List.find?_isSome]

/-- A successful lookup returns an array of the attribute data with the name. -/
theorem getArray_some (a : vtkDataSetAttributes D) (name : String) (array : vtkDataArray D)
    (h : a.GetArray name = some array) : array ∈ a.Arrays ∧ array.Name = name := by
  unfold vtkDataSetAttributes.GetArray at h
  refine ⟨List.mem_of_find?_eq_some h, ?_⟩
  have := List.find?_some h
  simpa using this

/-- The world after a run that passes both guards (lines 41 and 88). -/
theorem ImportActors_run [Mul D] [OfScientific D] (tk : Toolkit D Raw) (w : World D Raw)
    (surface : vtkPolyData D) (opts : F3DOptions D)
    (hv : w.self.Reader.Valid = true)
    (hs : extractSurface tk w.self.Reader.Output = some surface)
    (ho : w.self.Options = some opts) :
    ImportActors tk w =
      { self := { w.self with Reader := { w.self.Reader with
                    ProgressObservers := w.self.Reader.ProgressObservers + 1
                    Updates := w.self.Reader.Updates + 1 } }
        ren :=
          { Actors := w.ren.Actors ++ [createActor opts
              (configureColoring tk opts surface (usedArray opts surface)
                (createMapper tk opts surface)).mapper]
            Actors2D := w.ren.Actors2D ++
              (configureColoring tk opts surface (usedArray opts surface)
                (createMapper tk opts surface)).scalarBar.toList }
        cout := w.cout ++ verboseReport opts surface ++ (resolveUsedArray opts surface).2
        cerr := w.cerr ++
          (configureColoring tk opts surface (usedArray opts surface)
            (createMapper tk opts surface)).cerr
        log := w.log } := by
  unfold ImportActors usedArray
  simp only [hv, hs, ho]
  cases hb : (configureColoring tk opts surface (resolveUsedArray opts surface).1
      (createMapper tk opts surface)).scalarBar <;> simp [hb, String.append_assoc]

/-- Lines 192 to 259 when no array name is in use. -/
theorem configureColoring_empty [OfScientific D] (tk : Toolkit D Raw) (opts : F3DOptions D)
    (surface : vtkPolyData D) (mapper : vtkPolyDataMapper D) :
    configureColoring tk opts surface "" mapper =
      { mapper := { mapper with ScalarVisibility := false }, scalarBar := none, cerr := "" } := by
  simp [configureColoring]

/-- Lines 192 to 259 when the name is not found in the selected data. -/
theorem configureColoring_unknown [OfScientific D] (tk : Toolkit D Raw) (opts : F3DOptions D)
    (surface : vtkPolyData D) (name : String) (mapper : vtkPolyDataMapper D)
    (hn : name ≠ "") (ha : (selectedData opts surface).GetArray name = none) :
    configureColoring tk opts surface name mapper =
      { mapper := { mapper with ScalarVisibility := false }, scalarBar := none,
        cerr := "Unknow scalar array: " ++ name ++ "\n" } := by
  unfold configureColoring
  simp only [getArray_selected, ha]
  simp [hn]

/-- Lines 192 to 259 when the array is found and the component check fails. -/
theorem configureColoring_invalid [OfScientific D] (tk : Toolkit D Raw) (opts : F3DOptions D)
    (surface : vtkPolyData D) (name : String) (mapper : vtkPolyDataMapper D)
    (array : vtkDataArray D)
    (hn : name ≠ "") (ha : (selectedData opts surface).GetArray name = some array)
    (hc : ¬ opts.Component < (array.NumberOfComponents : Int)) :
    configureColoring tk opts surface name mapper =
      { mapper := { mapper with ScalarVisibility := false }, scalarBar := none,
        cerr := "Invalid component index: " ++ to_string opts.Component ++ "\n" } := by
  unfold configureColoring
  simp only [getArray_selected, ha]
  simp [hc, hn]

/-- Lines 192 to 259 when the array is found and the component check passes:
visibility, selected array, scalar mode and the scalar bar. -/
theorem configureColoring_on [OfScientific D] (tk : Toolkit D Raw) (opts : F3DOptions D)
    (surface : vtkPolyData D) (name : String) (mapper : vtkPolyDataMapper D)
    (array : vtkDataArray D)
    (hn : name ≠ "") (ha : (selectedData opts surface).GetArray name = some array)
    (hc : opts.Component < (array.NumberOfComponents : Int)) :
    ∃ (lut : vtkScalarsToColors) (range : D × D) (title : String),
      configureColoring tk opts surface name mapper =
        { mapper := { mapper with
                        ScalarVisibility := true
                        ColorArray := some name
                        ScalarMode := if opts.Cells then ScalarMode.USE_CELL_FIELD_DATA
                                      else ScalarMode.USE_POINT_FIELD_DATA
                        LookupTable := some lut
                        ScalarRange := some range }
          scalarBar := some
            { LookupTable := lut
              Title := title
              NumberOfLabels := 4
              Orientation := Orientation.HORIZONTAL
              Width := 0.8
              Height := 0.07
              Position := (0.1, 0.01)
              Visibility := opts.Bar }
          cerr := "" } ∧
      lut = (if opts.Component ≥ 0 then
              { (mapper.LookupTable).getD
                  { VectorMode := VectorMode.COMPONENT, VectorComponent := 0 } with
                VectorMode := VectorMode.COMPONENT, VectorComponent := opts.Component }
            else
              { (mapper.LookupTable).getD
                  { VectorMode := VectorMode.COMPONENT, VectorComponent := 0 } with
                VectorMode := VectorMode.MAGNITUDE }) ∧
      range = (if h : opts.Range.length = 2 then (opts.Range[0], opts.Range[1])
               else tk.GetRange array opts.Component) ∧
      title = (if opts.Component ≥ 0 then
                name ++ " (Component #" ++ to_string opts.Component ++ ")"
               else name) := by
  refine ⟨_, _, _, ?_, rfl, rfl, rfl⟩
  unfold configureColoring
  simp only [getArray_selected, ha]
  simp [hc, hn]

/-- Lines 192 to 259 leave the class, the input and the colour settings of the
mapper as `createMapper` made them. -/
theorem configureColoring_keeps [OfScientific D] (tk : Toolkit D Raw) (opts : F3DOptions D)
    (surface : vtkPolyData D) (name : String) (mapper : vtkPolyDataMapper D) :
    (configureColoring tk opts surface name mapper).mapper.Class = mapper.Class ∧
    (configureColoring tk opts surface name mapper).mapper.InterpolateScalarsBeforeMapping
      = mapper.InterpolateScalarsBeforeMapping ∧
    (configureColoring tk opts surface name mapper).mapper.ColorMode = mapper.ColorMode ∧
    (configureColoring tk opts surface name mapper).mapper.Input = mapper.Input := by
  by_cases hn : name = ""
  · subst hn
    rw [configureColoring_empty]
    exact ⟨rfl, rfl, rfl, rfl⟩
  · cases ha : (selectedData opts surface).GetArray name with
    | none =>
        rw [configureColoring_unknown tk opts surface name mapper hn ha]
        exact ⟨rfl, rfl, rfl, rfl⟩
    | some array =>
        by_cases hc : opts.Component < (array.NumberOfComponents : Int)
        · obtain ⟨lut, range, title, h, -⟩ :=
            configureColoring_on tk opts surface name mapper array hn ha hc
          rw [h]
          exact ⟨rfl, rfl, rfl, rfl⟩
        · rw [configureColoring_invalid tk opts surface name mapper array hn ha hc]
          exact ⟨rfl, rfl, rfl, rfl⟩

/-- The class of the mapper when the gaussian branch of line 100 is taken. -/
theorem createMapper_gaussian [Mul D] [OfScientific D] (tk : Toolkit D Raw)
    (opts : F3DOptions D) (surface : vtkPolyData D)
    (hg : opts.Raytracing = false ∧ surface.NumberOfVerts = surface.GetNumberOfCells) :
    (createMapper tk opts surface).Class =
      MapperClass.PointGaussianMapper
        (opts.PointSize * tk.GetDiagonalLength surface.Bounds * 0.001) false
        splatShaderCode := by
  unfold createMapper
  rw [if_pos hg]
  rfl

/-- The mapper when the else branch of line 124 is taken. -/
theorem createMapper_plain [Mul D] [OfScientific D] (tk : Toolkit D Raw)
    (opts : F3DOptions D) (surface : vtkPolyData D)
    (hg : ¬ (opts.Raytracing = false ∧ surface.NumberOfVerts = surface.GetNumberOfCells)) :
    (createMapper tk opts surface).Class = MapperClass.PolyDataMapper ∧
    (createMapper tk opts surface).InterpolateScalarsBeforeMapping = true ∧
    (createMapper tk opts surface).ColorMode = ColorMode.MAP_SCALARS := by
  unfold createMapper
  rw [if_neg hg]
  exact ⟨rfl, rfl, rfl⟩

/-- The mapper of line 132 has no lookup table yet. -/
theorem createMapper_lookupTable [Mul D] [OfScientific D] (tk : Toolkit D Raw)
    (opts : F3DOptions D) (surface : vtkPolyData D) :
    (createMapper tk opts surface).LookupTable = none := by
  unfold createMapper
  split <;> rfl

/-- The decimal text of a non-negative `int`. -/
theorem to_string_of_nonneg (i : Int) (h : 0 ≤ i) : to_string i = Nat.repr i.toNat := by
  cases i with
  | ofNat n => rfl
  | negSucc n => exact absurd h (by simp [Int.negSucc_lt_zero])

/-- The array name in use, case by case. -/
theorem usedArray_eq (opts : F3DOptions D) (surface : vtkPolyData D) :
    usedArray opts surface =
      if opts.Scalars = "f3d_reserved" then
        match (selectedData opts surface).GetScalars with
        | some array => array.Name
        | none => ""
      else opts.Scalars := by
  unfold usedArray resolveUsedArray
  simp only [getScalars_selected]
  split
  · cases (selectedData opts surface).GetScalars <;> rfl
  · rfl

end lemmas

/-! ## The claims -/

section claims

variable {D Raw : Type} [Mul D] [OfScientific D]

/-- C1: on an invalid reader (`IsReaderValid()` false, which is the same as
`CanReadFile()` false) `ImportActors` returns at line 45: whatever the options
and the renderer, the importer with its reader is left as it was (no observer,
no `Update()`), the renderer is unchanged (no actor, no scalar bar), and the
only effect is the logged message. -/
theorem ImportActors_invalid_reader (tk : Toolkit D Raw) (w : World D Raw)
    (h : w.self.Reader.Valid = false) :
    (CanReadFile w.self = false ↔ w.self.Reader.Valid = false) ∧
    (ImportActors tk w).self = w.self ∧
    (ImportActors tk w).self.Reader.Updates = w.self.Reader.Updates ∧
    (ImportActors tk w).ren = w.ren ∧
    (ImportActors tk w).cout = w.cout ∧
    (ImportActors tk w).cerr = w.cerr ∧
    (ImportActors tk w).log = w.log ++
      [(Severity.Info, ["File \x27", w.self.Reader.FileName, "\x27 cannot be read."])] := by
  unfold ImportActors CanReadFile
  simp [h]

/-- C1 at the sample world with an invalid reader. -/
theorem ImportActors_invalid_reader_witness :
    (sampleWorld (some sampleOptions) false).self.Reader.Valid = false ∧
    (ImportActors sampleToolkit (sampleWorld (some sampleOptions) false)).ren
      = (sampleWorld (some sampleOptions) false).ren ∧
    (ImportActors sampleToolkit (sampleWorld (some sampleOptions) false)).self.Reader.Updates
      = 0 :=
  ⟨rfl,
   (ImportActors_invalid_reader sampleToolkit (sampleWorld (some sampleOptions) false)
      rfl).2.2.2.1,
   (ImportActors_invalid_reader sampleToolkit (sampleWorld (some sampleOptions) false)
      rfl).2.2.1⟩

/-- C2, as stated, fails: with a valid reader, a surface and the non-empty
array name `pressure` that the point data does not carry, `ImportActors`
writes the diagnostic and still adds an actor to the renderer. -/
theorem ImportActors_missing_array_still_adds_actor :
    (sampleWorld (some missingArrayOptions) true).self.Reader.Valid = true ∧
    extractSurface sampleToolkit (sampleWorld (some missingArrayOptions) true).self.Reader.Output
      = some sampleSurface ∧
    usedArray missingArrayOptions sampleSurface = "pressure" ∧
    usedArray missingArrayOptions sampleSurface ≠ "" ∧
    (selectedData missingArrayOptions sampleSurface).GetArray
      (usedArray missingArrayOptions sampleSurface) = none ∧
    (ImportActors sampleToolkit (sampleWorld (some missingArrayOptions) true)).cerr
      = "Unknow scalar array: pressure\n" ∧
    (sampleWorld (some missingArrayOptions) true).ren.Actors.length = 0 ∧
    (ImportActors sampleToolkit (sampleWorld (some missingArrayOptions) true)).ren.Actors.length
      = 1 ∧
    (ImportActors sampleToolkit (sampleWorld (some missingArrayOptions) true)).ren.Actors
      ≠ (sampleWorld (some missingArrayOptions) true).ren.Actors := by
  refine ⟨rfl, rfl, by decide, by decide, by decide, by decide, rfl, by decide, ?_⟩
  intro h
  have h2 := congrArg List.length h
  revert h2
  decide

/-- C2, amended: with a valid reader, a surface and options whose resolved
array name is non-empty and is not found in the selected attribute data,
`ImportActors` writes `Unknow scalar array: <name>` to the error stream and
goes on: scalar visibility stays off, no scalar bar is added, and exactly one
actor is added to the renderer. -/
theorem ImportActors_missing_array (tk : Toolkit D Raw) (w : World D Raw)
    (surface : vtkPolyData D) (opts : F3DOptions D)
    (hv : w.self.Reader.Valid = true)
    (hs : extractSurface tk w.self.Reader.Output = some surface)
    (ho : w.self.Options = some opts)
    (hn : usedArray opts surface ≠ "")
    (ha : (selectedData opts surface).GetArray (usedArray opts surface) = none) :
    (ImportActors tk w).cerr
      = w.cerr ++ ("Unknow scalar array: " ++ usedArray opts surface ++ "\n") ∧
    (ImportActors tk w).ren.Actors2D = w.ren.Actors2D ∧
    ∃ actor : vtkActor D,
      (ImportActors tk w).ren.Actors = w.ren.Actors ++ [actor] ∧
      actor.Mapper.ScalarVisibility = false := by
  rw [ImportActors_run tk w surface opts hv hs ho,
    configureColoring_unknown tk opts surface _ _ hn ha]
  exact ⟨rfl, by simp, _, rfl, rfl⟩

/-- C2, amended, at the sample world with the array name `pressure`. -/
theorem ImportActors_missing_array_witness :
    (ImportActors sampleToolkit (sampleWorld (some missingArrayOptions) true)).cerr
      = (sampleWorld (some missingArrayOptions) true).cerr ++
        ("Unknow scalar array: " ++ usedArray missingArrayOptions sampleSurface ++ "\n") ∧
    (ImportActors sampleToolkit (sampleWorld (some missingArrayOptions) true)).ren.Actors2D
      = (sampleWorld (some missingArrayOptions) true).ren.Actors2D ∧
    ∃ actor : vtkActor Rat,
      (ImportActors sampleToolkit (sampleWorld (some missingArrayOptions) true)).ren.Actors
        = (sampleWorld (some missingArrayOptions) true).ren.Actors ++ [actor] ∧
      actor.Mapper.ScalarVisibility = false :=
  ImportActors_missing_array sampleToolkit (sampleWorld (some missingArrayOptions) true)
    sampleSurface missingArrayOptions rfl rfl rfl (by decide) (by decide)

/-- C3: in every run that reaches the end (valid reader, non-null surface,
options set) the actor added to the renderer has a property with PBR
interpolation, the three components of `SolidColor` as colour, and `Opacity`,
`Roughness`, `Metallic` and `PointSize` of the options, whatever the mapper
and the scalar-array options are. -/
theorem ImportActors_material (tk : Toolkit D Raw) (w : World D Raw)
    (surface : vtkPolyData D) (opts : F3DOptions D)
    (hv : w.self.Reader.Valid = true)
    (hs : extractSurface tk w.self.Reader.Output = some surface)
    (ho : w.self.Options = some opts) :
    ∃ mapper : vtkPolyDataMapper D,
      (ImportActors tk w).ren.Actors = w.ren.Actors ++
        [{ Mapper := mapper
           Property :=
             { Interpolation := Interpolation.PBR
               Color := (opts.SolidColor.1, opts.SolidColor.2.1, opts.SolidColor.2.2)
               Opacity := opts.Opacity
               Roughness := opts.Roughness
               Metallic := opts.Metallic
               PointSize := opts.PointSize } }] := by
  rw [ImportActors_run tk w surface opts hv hs ho]
  exact ⟨_, rfl⟩

/-- C3 at the sample world. -/
theorem ImportActors_material_witness :
    ∃ mapper : vtkPolyDataMapper Rat,
      (ImportActors sampleToolkit (sampleWorld (some sampleOptions) true)).ren.Actors =
        (sampleWorld (some sampleOptions) true).ren.Actors ++
        [{ Mapper := mapper
           Property :=
             { Interpolation := Interpolation.PBR
               Color := (sampleOptions.SolidColor.1, sampleOptions.SolidColor.2.1,
                         sampleOptions.SolidColor.2.2)
               Opacity := sampleOptions.Opacity
               Roughness := sampleOptions.Roughness
               Metallic := sampleOptions.Metallic
               PointSize := sampleOptions.PointSize } }] :=
  ImportActors_material sampleToolkit (sampleWorld (some sampleOptions) true)
    sampleSurface sampleOptions rfl rfl rfl

/-- C9: with a valid reader whose output yields a non-null surface and with
non-null options, `ImportActors` adds exactly one actor and at most one scalar
bar to the renderer, whatever the array lookup and the component check give. -/
theorem ImportActors_one_actor (tk : Toolkit D Raw) (w : World D Raw)
    (surface : vtkPolyData D) (opts : F3DOptions D)
    (hv : w.self.Reader.Valid = true)
    (hs : extractSurface tk w.self.Reader.Output = some surface)
    (ho : w.self.Options = some opts) :
    (∃ actor : vtkActor D, (ImportActors tk w).ren.Actors = w.ren.Actors ++ [actor]) ∧
    ((ImportActors tk w).ren.Actors2D = w.ren.Actors2D ∨
      ∃ scalarBar : vtkScalarBarActor D,
        (ImportActors tk w).ren.Actors2D = w.ren.Actors2D ++ [scalarBar]) := by
  rw [ImportActors_run tk w surface opts hv hs ho]
  refine ⟨⟨_, rfl⟩, ?_⟩
  cases (configureColoring tk opts surface (usedArray opts surface)
      (createMapper tk opts surface)).scalarBar with
  | none => left; simp
  | some bar => right; exact ⟨bar, rfl⟩

/-- C9 at the sample world. -/
theorem ImportActors_one_actor_witness :
    (∃ actor : vtkActor Rat,
      (ImportActors sampleToolkit (sampleWorld (some sampleOptions) true)).ren.Actors
        = (sampleWorld (some sampleOptions) true).ren.Actors ++ [actor]) ∧
    ((ImportActors sampleToolkit (sampleWorld (some sampleOptions) true)).ren.Actors2D
        = (sampleWorld (some sampleOptions) true).ren.Actors2D ∨
      ∃ scalarBar : vtkScalarBarActor Rat,
        (ImportActors sampleToolkit (sampleWorld (some sampleOptions) true)).ren.Actors2D
          = (sampleWorld (some sampleOptions) true).ren.Actors2D ++ [scalarBar]) :=
  ImportActors_one_actor sampleToolkit (sampleWorld (some sampleOptions) true)
    sampleSurface sampleOptions rfl rfl rfl

/-- C4: in every run that reaches the mapper configuration, the scalar
visibility of the actor's mapper is on exactly when the resolved array name is
non-empty, the lookup by that name in the selected attribute data (cell data
with `Cells`, point data without) finds an array, and `Component` is less
than its number of components.  The lookup finds an array exactly when some
array of the selected data carries the name.  When visibility is on the
mapper selects that name, in cell-field mode with `Cells` and point-field
mode without, and exactly one scalar bar, with visibility `Bar`, is added;
when it is off no scalar bar is added. -/
theorem ImportActors_color_mapping (tk : Toolkit D Raw) (w : World D Raw)
    (surface : vtkPolyData D) (opts : F3DOptions D)
    (hv : w.self.Reader.Valid = true)
    (hs : extractSurface tk w.self.Reader.Output = some surface)
    (ho : w.self.Options = some opts) :
    ∃ actor : vtkActor D,
      (ImportActors tk w).ren.Actors = w.ren.Actors ++ [actor] ∧
      (actor.Mapper.ScalarVisibility = true ↔
        (usedArray opts surface ≠ "" ∧
          ∃ array : vtkDataArray D,
            (selectedData opts surface).GetArray (usedArray opts surface) = some array ∧
            opts.Component < (array.NumberOfComponents : Int))) ∧
      (((selectedData opts surface).GetArray (usedArray opts surface)).isSome = true ↔
        ∃ array ∈ (selectedData opts surface).Arrays, array.Name = usedArray opts surface) ∧
      (actor.Mapper.ScalarVisibility = true →
        actor.Mapper.ColorArray = some (usedArray opts surface) ∧
        actor.Mapper.ScalarMode =
          (if opts.Cells then ScalarMode.USE_CELL_FIELD_DATA
           else ScalarMode.USE_POINT_FIELD_DATA) ∧
        ∃ scalarBar : vtkScalarBarActor D,
          (ImportActors tk w).ren.Actors2D = w.ren.Actors2D ++ [scalarBar] ∧
          scalarBar.Visibility = opts.Bar) ∧
      (actor.Mapper.ScalarVisibility = false →
        (ImportActors tk w).ren.Actors2D = w.ren.Actors2D) := by
  rw [ImportActors_run tk w surface opts hv hs ho]
  refine ⟨_, rfl, ?_⟩
  by_cases hn : usedArray opts surface = ""
  · rw [hn, configureColoring_empty]
    simp [createActor, getArray_isSome_iff]
  · cases ha : (selectedData opts surface).GetArray (usedArray opts surface) with
    | none =>
        have hex := getArray_isSome_iff (selectedData opts surface) (usedArray opts surface)
        rw [ha] at hex
        rw [configureColoring_unknown tk opts surface _ _ hn ha]
        refine ⟨by simp [createActor], by simpa using hex, by simp [createActor], ?_⟩
        intro _
        simp
    | some array =>
        have hex := getArray_isSome_iff (selectedData opts surface) (usedArray opts surface)
        rw [ha] at hex
        by_cases hc : opts.Component < (array.NumberOfComponents : Int)
        · obtain ⟨lut, range, title, h, -⟩ :=
            configureColoring_on tk opts surface _ (createMapper tk opts surface) array hn ha hc
          rw [h]
          refine ⟨by simp [createActor, hn, hc], by simpa using hex, ?_, by simp [createActor]⟩
          intro _
          exact ⟨rfl, rfl, _, rfl, rfl⟩
        · rw [configureColoring_invalid tk opts surface _ _ array hn ha hc]
          refine ⟨by simp [createActor, hc], by simpa using hex, by simp [createActor], ?_⟩
          intro _
          simp

/-- C4 at the sample input: the array `normals` is found and component 1 is
in range. -/
theorem ImportActors_color_mapping_witness :
    ∃ actor : vtkActor Rat,
      (ImportActors sampleToolkit (sampleWorld (some sampleOptions) true)).ren.Actors
        = (sampleWorld (some sampleOptions) true).ren.Actors ++ [actor] ∧
      (actor.Mapper.ScalarVisibility = true ↔
        (usedArray sampleOptions sampleSurface ≠ "" ∧
          ∃ array : vtkDataArray Rat,
            (selectedData sampleOptions sampleSurface).GetArray
              (usedArray sampleOptions sampleSurface) = some array ∧
            sampleOptions.Component < (array.NumberOfComponents : Int))) ∧
      (((selectedData sampleOptions sampleSurface).GetArray
          (usedArray sampleOptions sampleSurface)).isSome = true ↔
        ∃ array ∈ (selectedData sampleOptions sampleSurface).Arrays,
          array.Name = usedArray sampleOptions sampleSurface) ∧
      (actor.Mapper.ScalarVisibility = true →
        actor.Mapper.ColorArray = some (usedArray sampleOptions sampleSurface) ∧
        actor.Mapper.ScalarMode =
          (if sampleOptions.Cells then ScalarMode.USE_CELL_FIELD_DATA
           else ScalarMode.USE_POINT_FIELD_DATA) ∧
        ∃ scalarBar : vtkScalarBarActor Rat,
          (ImportActors sampleToolkit (sampleWorld (some sampleOptions) true)).ren.Actors2D
            = (sampleWorld (some sampleOptions) true).ren.Actors2D ++ [scalarBar] ∧
          scalarBar.Visibility = sampleOptions.Bar) ∧
      (actor.Mapper.ScalarVisibility = false →
        (ImportActors sampleToolkit (sampleWorld (some sampleOptions) true)).ren.Actors2D
          = (sampleWorld (some sampleOptions) true).ren.Actors2D) :=
  ImportActors_color_mapping sampleToolkit (sampleWorld (some sampleOptions) true)
    sampleSurface sampleOptions rfl rfl rfl

/-- C5: whenever colour mapping is enabled (non-empty name, array found,
component check passed), a `Range` option of exactly two elements becomes the
scalar range of the mapper, and a `Range` of any other length is ignored: the
scalar range is then the data range of the selected array for `Component`. -/
theorem ImportActors_scalar_range (tk : Toolkit D Raw) (w : World D Raw)
    (surface : vtkPolyData D) (opts : F3DOptions D) (array : vtkDataArray D)
    (hv : w.self.Reader.Valid = true)
    (hs : extractSurface tk w.self.Reader.Output = some surface)
    (ho : w.self.Options = some opts)
    (hn : usedArray opts surface ≠ "")
    (ha : (selectedData opts surface).GetArray (usedArray opts surface) = some array)
    (hc : opts.Component < (array.NumberOfComponents : Int)) :
    ∃ actor : vtkActor D,
      (ImportActors tk w).ren.Actors = w.ren.Actors ++ [actor] ∧
      actor.Mapper.ScalarVisibility = true ∧
      (∀ lo hi : D, opts.Range = [lo, hi] → actor.Mapper.ScalarRange = some (lo, hi)) ∧
      (opts.Range.length ≠ 2 →
        actor.Mapper.ScalarRange = some (tk.GetRange array opts.Component)) := by
  rw [ImportActors_run tk w surface opts hv hs ho]
  obtain ⟨lut, range, title, h, -, hr, -⟩ :=
    configureColoring_on tk opts surface _ (createMapper tk opts surface) array hn ha hc
  rw [h]
  refine ⟨_, rfl, rfl, ?_, ?_⟩
  · intro lo hi hrange
    simp [createActor, hr, hrange]
  · intro hlen
    simp [createActor, hr, hlen]

/-- C5 at three sample inputs: a two-element range is taken, an empty and a
three-element range give way to the data range. -/
theorem ImportActors_scalar_range_witness :
    (∃ actor : vtkActor Rat,
      (ImportActors sampleToolkit (sampleWorld (some rangeOptions) true)).ren.Actors
        = [actor] ∧ actor.Mapper.ScalarRange = some (2, 4)) ∧
    (∃ actor : vtkActor Rat,
      (ImportActors sampleToolkit (sampleWorld (some sampleOptions) true)).ren.Actors
        = [actor] ∧ actor.Mapper.ScalarRange = some (5, 9)) ∧
    (∃ actor : vtkActor Rat,
      (ImportActors sampleToolkit (sampleWorld (some longRangeOptions) true)).ren.Actors
        = [actor] ∧ actor.Mapper.ScalarRange = some (5, 9)) := by
  refine ⟨?_, ?_, ?_⟩
  · obtain ⟨actor, h1, -, h2, -⟩ :=
      ImportActors_scalar_range sampleToolkit (sampleWorld (some rangeOptions) true)
        sampleSurface rangeOptions sampleNormals
        rfl rfl rfl (by decide) (by decide) (by decide)
    exact ⟨actor, h1, h2 2 4 rfl⟩
  · obtain ⟨actor, h1, -, -, h3⟩ :=
      ImportActors_scalar_range sampleToolkit (sampleWorld (some sampleOptions) true)
        sampleSurface sampleOptions sampleNormals
        rfl rfl rfl (by decide) (by decide) (by decide)
    exact ⟨actor, h1, h3 (by decide)⟩
  · obtain ⟨actor, h1, -, -, h3⟩ :=
      ImportActors_scalar_range sampleToolkit (sampleWorld (some longRangeOptions) true)
        sampleSurface longRangeOptions sampleNormals
        rfl rfl rfl (by decide) (by decide) (by decide)
    exact ⟨actor, h1, h3 (by decide)⟩

/-- C6: for every non-null surface and options, the actor's mapper is the
point-gaussian one exactly when `Raytracing` is false and the number of vertex
cells equals the number of cells, which is the case of a surface without
cells; otherwise it is a plain poly-data mapper with
interpolate-scalars-before-mapping on and colour mode map-scalars.  With
`Raytracing` set the point-gaussian mapper is never used. -/
theorem ImportActors_mapper_choice (tk : Toolkit D Raw) (w : World D Raw)
    (surface : vtkPolyData D) (opts : F3DOptions D)
    (hv : w.self.Reader.Valid = true)
    (hs : extractSurface tk w.self.Reader.Output = some surface)
    (ho : w.self.Options = some opts) :
    ∃ actor : vtkActor D,
      (ImportActors tk w).ren.Actors = w.ren.Actors ++ [actor] ∧
      (actor.Mapper.Class.isPointGaussian = true ↔
        (opts.Raytracing = false ∧ surface.NumberOfVerts = surface.GetNumberOfCells)) ∧
      (actor.Mapper.Class.isPointGaussian = false →
        actor.Mapper.Class = MapperClass.PolyDataMapper ∧
        actor.Mapper.InterpolateScalarsBeforeMapping = true ∧
        actor.Mapper.ColorMode = ColorMode.MAP_SCALARS) ∧
      (opts.Raytracing = false → surface.GetNumberOfCells = 0 →
        actor.Mapper.Class.isPointGaussian = true) ∧
      (opts.Raytracing = true → actor.Mapper.Class.isPointGaussian = false) := by
  rw [ImportActors_run tk w surface opts hv hs ho]
  refine ⟨_, rfl, ?_⟩
  obtain ⟨h1, h2, h3, -⟩ := configureColoring_keeps tk opts surface (usedArray opts surface)
    (createMapper tk opts surface)
  simp only [createActor, h1, h2, h3]
  by_cases hg : opts.Raytracing = false ∧ surface.NumberOfVerts = surface.GetNumberOfCells
  · rw [createMapper_gaussian tk opts surface hg]
    refine ⟨by simp [MapperClass.isPointGaussian, hg], by simp [MapperClass.isPointGaussian],
      by simp [MapperClass.isPointGaussian], ?_⟩
    intro hr
    rw [hg.1] at hr
    exact absurd hr (by decide)
  · obtain ⟨e1, e2, e3⟩ := createMapper_plain tk opts surface hg
    rw [e1, e2, e3]
    refine ⟨by simp [MapperClass.isPointGaussian, hg], by simp [MapperClass.isPointGaussian],
      ?_, by simp [MapperClass.isPointGaussian]⟩
    intro hr hz
    exfalso
    apply hg
    refine ⟨hr, ?_⟩
    unfold vtkPolyData.GetNumberOfCells at hz ⊢
    omega

/-- C6 at two sample inputs: the triangle gets the plain mapper, the point
cloud the point-gaussian one. -/
theorem ImportActors_mapper_choice_witness :
    (∃ actor : vtkActor Rat,
      (ImportActors sampleToolkit (worldOn sampleSurface (some sampleOptions) true)).ren.Actors
        = [actor] ∧
      actor.Mapper.Class = MapperClass.PolyDataMapper ∧
      actor.Mapper.InterpolateScalarsBeforeMapping = true ∧
      actor.Mapper.ColorMode = ColorMode.MAP_SCALARS) ∧
    (∃ actor : vtkActor Rat,
      (ImportActors sampleToolkit (worldOn pointCloud (some sampleOptions) true)).ren.Actors
        = [actor] ∧
      actor.Mapper.Class.isPointGaussian = true) := by
  refine ⟨?_, ?_⟩
  · obtain ⟨actor, h1, h2, h3, -⟩ :=
      ImportActors_mapper_choice sampleToolkit (worldOn sampleSurface (some sampleOptions) true)
        sampleSurface sampleOptions rfl rfl rfl
    refine ⟨actor, h1, h3 ?_⟩
    cases hb : actor.Mapper.Class.isPointGaussian with
    | false => rfl
    | true => exact absurd (h2.mp hb).2 (by decide)
  · obtain ⟨actor, h1, h2, -⟩ :=
      ImportActors_mapper_choice sampleToolkit (worldOn pointCloud (some sampleOptions) true)
        pointCloud sampleOptions rfl rfl rfl
    exact ⟨actor, h1, h2.mpr (by decide)⟩

/-- C7: a `Scalars` option other than `f3d_reserved` is the array name in use;
with `f3d_reserved` the name is that of the default scalars of the selected
attribute data (cell data with `Cells`, point data without), and when there
are none the name is empty: colour mapping is off, no scalar bar is added and
nothing is written to the error stream. -/
theorem ImportActors_array_name (tk : Toolkit D Raw) (w : World D Raw)
    (surface : vtkPolyData D) (opts : F3DOptions D)
    (hv : w.self.Reader.Valid = true)
    (hs : extractSurface tk w.self.Reader.Output = some surface)
    (ho : w.self.Options = some opts) :
    (opts.Scalars ≠ "f3d_reserved" → usedArray opts surface = opts.Scalars) ∧
    (opts.Scalars = "f3d_reserved" →
      ∀ array : vtkDataArray D, (selectedData opts surface).GetScalars = some array →
        usedArray opts surface = array.Name) ∧
    (opts.Scalars = "f3d_reserved" → (selectedData opts surface).GetScalars = none →
      usedArray opts surface = "" ∧
      (ImportActors tk w).cerr = w.cerr ∧
      (ImportActors tk w).ren.Actors2D = w.ren.Actors2D ∧
      ∃ actor : vtkActor D,
        (ImportActors tk w).ren.Actors = w.ren.Actors ++ [actor] ∧
        actor.Mapper.ScalarVisibility = false) := by
  refine ⟨?_, ?_, ?_⟩
  · intro h
    rw [usedArray_eq, if_neg h]
  · intro h array hsc
    rw [usedArray_eq, if_pos h, hsc]
  · intro h hsc
    have hu : usedArray opts surface = "" := by
      rw [usedArray_eq, if_pos h, hsc]
    rw [ImportActors_run tk w surface opts hv hs ho, hu, configureColoring_empty]
    exact ⟨rfl, by simp, by simp, _, rfl, rfl⟩

/-- C7 at three sample inputs: a plain name, the reserved name with default
scalars, and the reserved name without. -/
theorem ImportActors_array_name_witness :
    usedArray missingArrayOptions sampleSurface = "pressure" ∧
    usedArray reservedOptions sampleSurface = "normals" ∧
    (usedArray reservedCellOptions sampleSurface = "" ∧
      (ImportActors sampleToolkit (sampleWorld (some reservedCellOptions) true)).cerr = "" ∧
      (ImportActors sampleToolkit (sampleWorld (some reservedCellOptions) true)).ren.Actors2D
        = []) := by
  refine ⟨?_, ?_, ?_⟩
  · exact (ImportActors_array_name sampleToolkit (sampleWorld (some missingArrayOptions) true)
      sampleSurface missingArrayOptions rfl rfl rfl).1 (by decide)
  · exact (ImportActors_array_name sampleToolkit (sampleWorld (some reservedOptions) true)
      sampleSurface reservedOptions rfl rfl rfl).2.1 rfl sampleNormals rfl
  · obtain ⟨h1, h2, h3, -⟩ :=
      (ImportActors_array_name sampleToolkit (sampleWorld (some reservedCellOptions) true)
        sampleSurface reservedCellOptions rfl rfl rfl).2.2 rfl rfl
    exact ⟨h1, h2, h3⟩

/-- C8: whenever the selected array exists (the name in use is looked up and
found), a `Component` from 0 up to the
number of components (excluded) puts the lookup table in component mode on
that component and titles the scalar bar with the array name followed by
` (Component #k)`, `k` the decimal `Component`; any negative `Component`
passes the component check, puts the lookup table in magnitude mode and
titles the bar with the array name alone; a `Component` not below the number
of components writes the invalid-component diagnostic and leaves colour
mapping off. -/
theorem ImportActors_component (tk : Toolkit D Raw) (w : World D Raw)
    (surface : vtkPolyData D) (opts : F3DOptions D) (array : vtkDataArray D)
    (hv : w.self.Reader.Valid = true)
    (hs : extractSurface tk w.self.Reader.Output = some surface)
    (ho : w.self.Options = some opts)
    (hn : usedArray opts surface ≠ "")
    (ha : (selectedData opts surface).GetArray (usedArray opts surface) = some array) :
    (0 ≤ opts.Component → opts.Component < (array.NumberOfComponents : Int) →
      ∃ (actor : vtkActor D) (scalarBar : vtkScalarBarActor D),
        (ImportActors tk w).ren.Actors = w.ren.Actors ++ [actor] ∧
        (ImportActors tk w).ren.Actors2D = w.ren.Actors2D ++ [scalarBar] ∧
        actor.Mapper.ScalarVisibility = true ∧
        actor.Mapper.LookupTable = some
          { VectorMode := VectorMode.COMPONENT, VectorComponent := opts.Component } ∧
        scalarBar.LookupTable =
          { VectorMode := VectorMode.COMPONENT, VectorComponent := opts.Component } ∧
        scalarBar.Title = usedArray opts surface ++ " (Component #" ++
          Nat.repr opts.Component.toNat ++ ")") ∧
    (opts.Component < 0 →
      ∃ (actor : vtkActor D) (scalarBar : vtkScalarBarActor D),
        (ImportActors tk w).ren.Actors = w.ren.Actors ++ [actor] ∧
        (ImportActors tk w).ren.Actors2D = w.ren.Actors2D ++ [scalarBar] ∧
        actor.Mapper.ScalarVisibility = true ∧
        actor.Mapper.LookupTable = some scalarBar.LookupTable ∧
        scalarBar.LookupTable.VectorMode = VectorMode.MAGNITUDE ∧
        scalarBar.Title = usedArray opts surface) ∧
    ((array.NumberOfComponents : Int) ≤ opts.Component →
      (ImportActors tk w).cerr = w.cerr ++
        ("Invalid component index: " ++ Nat.repr opts.Component.toNat ++ "\n") ∧
      (ImportActors tk w).ren.Actors2D = w.ren.Actors2D ∧
      ∃ actor : vtkActor D,
        (ImportActors tk w).ren.Actors = w.ren.Actors ++ [actor] ∧
        actor.Mapper.ScalarVisibility = false) := by
  rw [ImportActors_run tk w surface opts hv hs ho]
  refine ⟨?_, ?_, ?_⟩
  · intro h0 hc
    obtain ⟨lut, range, title, h, hl, -, ht⟩ :=
      configureColoring_on tk opts surface _ (createMapper tk opts surface) array hn ha hc
    rw [h]
    rw [if_pos h0] at hl ht
    rw [to_string_of_nonneg _ h0] at ht
    refine ⟨_, _, rfl, rfl, rfl, ?_, ?_, ht⟩
    · simp [createActor, hl]
    · simp [hl]
  · intro hneg
    have hc : opts.Component < (array.NumberOfComponents : Int) := by omega
    obtain ⟨lut, range, title, h, hl, -, ht⟩ :=
      configureColoring_on tk opts surface _ (createMapper tk opts surface) array hn ha hc
    rw [h]
    have h0 : ¬ opts.Component ≥ 0 := by omega
    rw [if_neg h0] at hl ht
    refine ⟨_, _, rfl, rfl, rfl, rfl, ?_, ht⟩
    simp [hl]
  · intro hge
    have hc : ¬ opts.Component < (array.NumberOfComponents : Int) := by omega
    have h0 : 0 ≤ opts.Component := by omega
    rw [configureColoring_invalid tk opts surface _ _ array hn ha hc,
      to_string_of_nonneg _ h0]
    exact ⟨rfl, by simp, _, rfl, rfl⟩

/-- C8 at three sample inputs: component 1, component -2 and component 3 of
the three-component array `normals`. -/
theorem ImportActors_component_witness :
    (∃ scalarBar : vtkScalarBarActor Rat,
      (ImportActors sampleToolkit (sampleWorld (some sampleOptions) true)).ren.Actors2D
        = [scalarBar] ∧
      scalarBar.LookupTable = { VectorMode := VectorMode.COMPONENT, VectorComponent := 1 } ∧
      scalarBar.Title = "normals (Component #1)") ∧
    (∃ scalarBar : vtkScalarBarActor Rat,
      (ImportActors sampleToolkit (sampleWorld (some magnitudeOptions) true)).ren.Actors2D
        = [scalarBar] ∧
      scalarBar.LookupTable.VectorMode = VectorMode.MAGNITUDE ∧
      scalarBar.Title = "normals") ∧
    ((ImportActors sampleToolkit (sampleWorld (some badComponentOptions) true)).cerr
        = "Invalid component index: 3\n" ∧
      (ImportActors sampleToolkit (sampleWorld (some badComponentOptions) true)).ren.Actors2D
        = []) := by
  refine ⟨?_, ?_, ?_⟩
  · obtain ⟨actor, scalarBar, -, h2, -, -, h5, h6⟩ :=
      (ImportActors_component sampleToolkit (sampleWorld (some sampleOptions) true)
        sampleSurface sampleOptions sampleNormals rfl rfl rfl (by decide) (by decide)).1
        (by decide) (by decide)
    refine ⟨scalarBar, h2, h5, ?_⟩
    rw [h6]
    decide
  · obtain ⟨actor, scalarBar, -, h2, -, -, h5, h6⟩ :=
      (ImportActors_component sampleToolkit (sampleWorld (some magnitudeOptions) true)
        sampleSurface magnitudeOptions sampleNormals rfl rfl rfl (by decide) (by decide)).2.1
        (by decide)
    refine ⟨scalarBar, h2, h5, ?_⟩
    rw [h6]
    decide
  · obtain ⟨h1, h2, -⟩ :=
      (ImportActors_component sampleToolkit (sampleWorld (some badComponentOptions) true)
        sampleSurface badComponentOptions sampleNormals rfl rfl rfl (by decide) (by decide)).2.2
        (by decide)
    refine ⟨?_, h2⟩
    rw [h1]
    decide

/-- C10: the `Verbose` option only reaches `cout`.  For every world and every
two option values that differ only in `Verbose`, each given with
`SetOptions`, `ImportActors` leaves the
same reader, the same renderer (same actor with the same mapper, same scalar
bar or none), the same error stream and the same log; on every surface the
two resolve the same array name, create the same mapper and configure colour
mapping alike. -/
theorem ImportActors_verbose (tk : Toolkit D Raw) (w : World D Raw) (opts : F3DOptions D)
    (v : Bool) :
    (ImportActors tk
        { w with self := SetOptions w.self { opts with Verbose := v } }).ren
      = (ImportActors tk { w with self := SetOptions w.self opts }).ren ∧
    (ImportActors tk
        { w with self := SetOptions w.self { opts with Verbose := v } }).self.Reader
      = (ImportActors tk { w with self := SetOptions w.self opts }).self.Reader ∧
    (ImportActors tk
        { w with self := SetOptions w.self { opts with Verbose := v } }).cerr
      = (ImportActors tk { w with self := SetOptions w.self opts }).cerr ∧
    (ImportActors tk
        { w with self := SetOptions w.self { opts with Verbose := v } }).log
      = (ImportActors tk { w with self := SetOptions w.self opts }).log ∧
    ∀ surface : vtkPolyData D,
      usedArray { opts with Verbose := v } surface = usedArray opts surface ∧
      createMapper tk { opts with Verbose := v } surface = createMapper tk opts surface ∧
      ∀ (name : String) (mapper : vtkPolyDataMapper D),
        (configureColoring tk { opts with Verbose := v } surface name mapper).mapper
          = (configureColoring tk opts surface name mapper).mapper ∧
        (configureColoring tk { opts with Verbose := v } surface name mapper).scalarBar
          = (configureColoring tk opts surface name mapper).scalarBar := by
  have hu : ∀ surface : vtkPolyData D,
      usedArray { opts with Verbose := v } surface = usedArray opts surface := by
    intro surface
    rw [usedArray_eq, usedArray_eq]
    rfl
  have hm : ∀ surface : vtkPolyData D,
      createMapper tk { opts with Verbose := v } surface = createMapper tk opts surface :=
    fun _ => rfl
  have hc : ∀ (surface : vtkPolyData D) (name : String) (mapper : vtkPolyDataMapper D),
      configureColoring tk { opts with Verbose := v } surface name mapper
        = configureColoring tk opts surface name mapper :=
    fun _ _ _ => rfl
  have hrest : ∀ surface : vtkPolyData D, usedArray { opts with Verbose := v } surface
        = usedArray opts surface ∧
      createMapper tk { opts with Verbose := v } surface = createMapper tk opts surface ∧
      ∀ (name : String) (mapper : vtkPolyDataMapper D),
        (configureColoring tk { opts with Verbose := v } surface name mapper).mapper
          = (configureColoring tk opts surface name mapper).mapper ∧
        (configureColoring tk { opts with Verbose := v } surface name mapper).scalarBar
          = (configureColoring tk opts surface name mapper).scalarBar := by
    intro surface
    refine ⟨hu surface, hm surface, ?_⟩
    intro name mapper
    rw [hc]
    exact ⟨rfl, rfl⟩
  cases hv : w.self.Reader.Valid with
  | false =>
      refine ⟨?_, ?_, ?_, ?_, hrest⟩ <;> simp [ImportActors, SetOptions, hv]
  | true =>
      cases hs : extractSurface tk w.self.Reader.Output with
      | none =>
          refine ⟨?_, ?_, ?_, ?_, hrest⟩ <;> simp [ImportActors, SetOptions, hv, hs]
      | some surface =>
          rw [ImportActors_run tk
              { w with self := SetOptions w.self { opts with Verbose := v } }
              surface { opts with Verbose := v } hv hs rfl,
            ImportActors_run tk { w with self := SetOptions w.self opts }
              surface opts hv hs rfl, hu, hm, hc]
          exact ⟨rfl, rfl, rfl, rfl, hrest⟩

end claims

end F3D
